import Mathlib

/-!
# Verification of the dental-appointment booking engine

Shallow embedding of the booking core of the repository
(`src/services/booking.service.ts`, `src/routes/booking.route.ts`,
`src/routes/vapi.route.ts`, `src/db/sqlite.ts`, `src/types/index.ts`)
and proofs about the spec's claims.

Conventions of the embedding:
* The SQLite store is a `Store` value (list of appointment rows and a list
  of idempotency-key rows); `db.transaction` is modelled as an atomic
  function on `Store` that either completes or throws (rolls back).
* JavaScript exceptions are modelled with `Except String` / an explicit
  `Option String` fault parameter standing for errors raised by the
  storage driver (e.g. `SQLITE_BUSY: database is locked`).
* The host `Date` built-in is abstracted by explicit function parameters
  (`parseDate` for `Date.parse`, `normalize` for
  `s => new Date(s).toISOString()`); `crypto.createHash('sha256')` is
  implemented concretely below, and the JSON round trip
  `JSON.parse (JSON.stringify body)` on stored response bodies is
  modelled as the identity on the structured body.
-/

namespace Booking

/-! ## SHA-256 (model of node's `createHash('sha256').update(s).digest('hex')`) -/

/-- Truncate to a 32-bit word. -/
def w32 (n : Nat) : Nat := n % 4294967296

/-- 32-bit right rotation. -/
def rotr (x n : Nat) : Nat := w32 ((x >>> n) ||| (x <<< (32 - n)))

/-- 32-bit bitwise complement. -/
def bnot32 (x : Nat) : Nat := 4294967295 ^^^ x

/-- UTF-8 encoding of one character, as bytes. -/
def utf8Char (c : Char) : List Nat :=
  let n := c.toNat
  if n < 128 then [n]
  else if n < 2048 then [192 + n / 64, 128 + n % 64]
  else if n < 65536 then [224 + n / 4096, 128 + n / 64 % 64, 128 + n % 64]
  else [240 + n / 262144, 128 + n / 4096 % 64, 128 + n / 64 % 64, 128 + n % 64]

/-- UTF-8 bytes of a string. -/
def utf8Bytes (s : String) : List Nat := s.data.flatMap utf8Char

/-- Big-endian byte decomposition of `n` into `k` bytes. -/
def bytesBE : Nat → Nat → List Nat
  | 0, _ => []
  | k + 1, n => bytesBE k (n / 256) ++ [n % 256]

/-- SHA-256 padding: append `0x80`, zero bytes, and the 64-bit bit length. -/
def shaPad (m : List Nat) : List Nat :=
  let zeros := (64 + 56 - (m.length + 1) % 64) % 64
  m ++ [128] ++ List.replicate zeros 0 ++ bytesBE 8 (m.length * 8)

/-- Group bytes into big-endian 32-bit words. -/
def bytesToWords : List Nat → List Nat
  | b0 :: b1 :: b2 :: b3 :: rest =>
    (b0 * 16777216 + b1 * 65536 + b2 * 256 + b3) :: bytesToWords rest
  | _ => []

/-- Split a byte list into 64-byte blocks (input length is a multiple of 64). -/
def toBlocksAux : Nat → List Nat → List (List Nat)
  | 0, _ => []
  | k + 1, l => l.take 64 :: toBlocksAux k (l.drop 64)

def toBlocks (l : List Nat) : List (List Nat) := toBlocksAux (l.length / 64) l

/-- SHA-256 round constants. -/
def kconsts : List Nat :=
  [1116352408, 1899447441, 3049323471, 3921009573, 961987163,
   1508970993, 2453635748, 2870763221, 3624381080, 310598401,
   607225278, 1426881987, 1925078388, 2162078206, 2614888103,
   3248222580, 3835390401, 4022224774, 264347078, 604807628,
   770255983, 1249150122, 1555081692, 1996064986, 2554220882,
   2821834349, 2952996808, 3210313671, 3336571891, 3584528711,
   113926993, 338241895, 666307205, 773529912, 1294757372,
   1396182291, 1695183700, 1986661051, 2177026350, 2456956037,
   2730485921, 2820302411, 3259730800, 3345764771, 3516065817,
   3600352804, 4094571909, 275423344, 430227734, 506948616,
   659060556, 883997877, 958139571, 1322822218, 1537002063,
   1747873779, 1955562222, 2024104815, 2227730452, 2361852424,
   2428436474, 2756734187, 3204031479, 3329325298]

/-- Extend 16 message words to the 64-word schedule. -/
def extendSchedule (ws : Array Nat) : Array Nat :=
  (List.range 48).foldl (fun arr _ =>
    let n := arr.size
    let s0 :=
      rotr (arr.getD (n - 15) 0) 7 ^^^ rotr (arr.getD (n - 15) 0) 18 ^^^
        (arr.getD (n - 15) 0) >>> 3
    let s1 :=
      rotr (arr.getD (n - 2) 0) 17 ^^^ rotr (arr.getD (n - 2) 0) 19 ^^^
        (arr.getD (n - 2) 0) >>> 10
    arr.push (w32 (arr.getD (n - 16) 0 + s0 + arr.getD (n - 7) 0 + s1))) ws

/-- The eight working variables of the compression loop. -/
structure Hash8 where
  va : Nat
  vb : Nat
  vc : Nat
  vd : Nat
  ve : Nat
  vf : Nat
  vg : Nat
  vh : Nat
deriving Repr, DecidableEq

/-- One compression round. -/
def shaStep (s : Hash8) (kw : Nat × Nat) : Hash8 :=
  let S1 := rotr s.ve 6 ^^^ rotr s.ve 11 ^^^ rotr s.ve 25
  let ch := (s.ve &&& s.vf) ^^^ (bnot32 s.ve &&& s.vg)
  let temp1 := w32 (s.vh + S1 + ch + kw.1 + kw.2)
  let S0 := rotr s.va 2 ^^^ rotr s.va 13 ^^^ rotr s.va 22
  let maj := (s.va &&& s.vb) ^^^ (s.va &&& s.vc) ^^^ (s.vb &&& s.vc)
  let temp2 := w32 (S0 + maj)
  ⟨w32 (temp1 + temp2), s.va, s.vb, s.vc, w32 (s.vd + temp1), s.ve, s.vf, s.vg⟩

/-- Compress one 64-byte block into the running hash state. -/
def compressBlock (h : Hash8) (block : List Nat) : Hash8 :=
  let ws := (extendSchedule (bytesToWords block).toArray).toList
  let s := (kconsts.zip ws).foldl shaStep h
  ⟨w32 (h.va + s.va), w32 (h.vb + s.vb), w32 (h.vc + s.vc), w32 (h.vd + s.vd),
   w32 (h.ve + s.ve), w32 (h.vf + s.vf), w32 (h.vg + s.vg), w32 (h.vh + s.vh)⟩

def shaInit : Hash8 :=
  ⟨1779033703, 3144134277, 1013904242, 2773480762,
   1359893119, 2600822924, 528734635, 1541459225⟩

/-- One lowercase hex digit. -/
def hexDigit (n : Nat) : Char :=
  if n < 10 then Char.ofNat (48 + n) else Char.ofNat (87 + n)

/-- Lowercase 8-hex-digit rendering of a 32-bit word. -/
def hex8 (n : Nat) : String :=
  String.mk ((List.range 8).map fun i => hexDigit (n / 16 ^ (7 - i) % 16))

/-- SHA-256 hex digest of a string's UTF-8 bytes. -/
def sha256 (s : String) : String :=
  let h := (toBlocks (shaPad (utf8Bytes s))).foldl compressBlock shaInit
  hex8 h.va ++ hex8 h.vb ++ hex8 h.vc ++ hex8 h.vd ++
    hex8 h.ve ++ hex8 h.vf ++ hex8 h.vg ++ hex8 h.vh

/-! ## Data model (`src/types/index.ts`, `src/db/sqlite.ts`)

`created_at` / `updated_at` columns are set by the store and never read by
the modelled code, so the embedding omits them. -/

/-- A raw JSON payload value, as the untyped `req.body` fields arrive at the
route handler: a string, a number, or JSON null; an absent field is `none`
at the use sites (`Option JsValue`). -/
inductive JsValue
  | str (s : String)
  | num (n : Int)
  | nullv
deriving Repr, DecidableEq

/-- The raw booking request the route builds from `req.body`
(`{patient_id: req.body.patient_id, slot_datetime: req.body.slot_datetime}`),
before any validation. `none` models an absent (`undefined`) field. -/
structure RawRequest where
  patient_id : Option JsValue
  slot_datetime : Option JsValue
deriving Repr, DecidableEq

/-- `ErrorCode` enum of `src/types/index.ts`. -/
inductive ErrorCode
  | SLOT_TAKEN
  | INVALID_SLOT
  | INVALID_PATIENT_ID
  | MISSING_IDEMPOTENCY_KEY
  | IDEMPOTENCY_KEY_MISMATCH
  | SLOT_IN_PAST
  | INTERNAL_ERROR
  | LOCK_TIMEOUT
deriving Repr, DecidableEq

/-- The `error` object of an `ApiResponse`; `details` models the optional
`details` record as a list of field/value pairs (empty = absent). -/
structure ApiError where
  code : ErrorCode
  message : String
  details : List (String × String)
deriving Repr, DecidableEq

/-- `BookingSuccessData` of `src/types/index.ts`. -/
structure BookingSuccessData where
  appointment_id : String
  patient_id : String
  slot_datetime : String
  status : String
  message : String
deriving Repr, DecidableEq

/-- `ApiResponse` of `src/types/index.ts`. -/
structure ApiResponse where
  success : Bool
  data : Option BookingSuccessData
  error : Option ApiError
deriving Repr, DecidableEq

/-- A row of the `appointments` table. -/
structure Appointment where
  id : String
  patient_id : String
  slot_datetime : String
  status : String
deriving Repr, DecidableEq

/-- A row of the `idempotency_keys` table. The `response_body` column holds
`JSON.stringify` of the response; the round trip through
`JSON.parse ∘ JSON.stringify` is modelled as the identity, so the row keeps
the structured body. -/
structure IdemRecord where
  idempotency_key : String
  request_hash : String
  response_status : Nat
  response_body : ApiResponse
deriving Repr, DecidableEq

/-- The SQLite database: both tables. -/
structure Store where
  appointments : List Appointment
  idempotency_keys : List IdemRecord
deriving Repr, DecidableEq

/-! ## Request fingerprint (`BookingService.hashRequest`)

`hashRequest` is
`sha256(JSON.stringify({patient_id: request.patient_id, slot_datetime: request.slot_datetime}))`
over the raw field values of the request. -/

/-- JSON string escaping of one character, as `JSON.stringify` renders it. -/
def jsonEscapeChar (c : Char) : String :=
  if c = '"' then "\\\""
  else if c = '\\' then "\\\\"
  else if c = '\n' then "\\n"
  else if c = '\r' then "\\r"
  else if c = '\t' then "\\t"
  else if c.toNat < 32 then
    "\\u00" ++ String.mk [hexDigit (c.toNat / 16), hexDigit (c.toNat % 16)]
  else String.mk [c]

/-- `JSON.stringify` of a string value. -/
def jsonQuote (s : String) : String :=
  "\"" ++ String.join (s.data.map jsonEscapeChar) ++ "\""

/-- `JSON.stringify` of one raw field value; `none` (the `undefined` field)
is omitted from the serialized object entirely. -/
def stringifyField : Option JsValue → Option String
  | none => none
  | some (.str s) => some (jsonQuote s)
  | some (.num n) => some (toString n)
  | some .nullv => some "null"

/-- The JSON text hashed by `hashRequest`:
`JSON.stringify({patient_id: ..., slot_datetime: ...})` with the raw values. -/
def hashInput (req : RawRequest) : String :=
  let fields := [("patient_id", stringifyField req.patient_id),
                 ("slot_datetime", stringifyField req.slot_datetime)]
  "\x7b" ++
    String.intercalate ","
      (fields.filterMap fun kv => kv.2.map fun v => jsonQuote kv.1 ++ ":" ++ v) ++
    "\x7d"

/-- `BookingService.hashRequest`: SHA-256 hex digest of the request's
canonical two-field JSON serialization (raw values, no normalization). -/
def hashRequest (req : RawRequest) : String := sha256 (hashInput req)

/-! ## Idempotency-key bookkeeping (`BookingService`) -/

/-- `statements.getIdempotencyKey`: `SELECT * FROM idempotency_keys WHERE
idempotency_key = ?`. -/
def getIdemRecord (st : Store) (key : String) : Option IdemRecord :=
  st.idempotency_keys.find? fun r => r.idempotency_key == key

/-- `statements.insertIdempotencyKey`: `INSERT OR IGNORE INTO
idempotency_keys ...` — inserts unless a row with this key exists. -/
def insertIdempotencyKey (st : Store) (key hash : String) (status : Nat)
    (body : ApiResponse) : Store :=
  match getIdemRecord st key with
  | some _ => st
  | none =>
    { st with idempotency_keys := st.idempotency_keys ++ [⟨key, hash, status, body⟩] }

/-- `BookingService.storeIdempotencyKey`. The source wraps the insert in
`try/catch` and swallows every error, so the model is a total function on
the store. -/
def storeIdempotencyKey (st : Store) (key : String) (req : RawRequest)
    (status : Nat) (body : ApiResponse) : Store :=
  insertIdempotencyKey st key (hashRequest req) status body

/-- Result shape of `BookingService.checkIdempotencyKey`, as the route
consumes it: `mismatch`, `found` with the cached `(status, response)`, or
not found. -/
inductive IdemCheck
  | absent
  | hit (status : Nat) (resp : ApiResponse)
  | mismatch
deriving Repr, DecidableEq

/-- `BookingService.checkIdempotencyKey`. -/
def checkIdempotencyKey (st : Store) (key : String) (req : RawRequest) : IdemCheck :=
  match getIdemRecord st key with
  | none => .absent
  | some row =>
    if row.request_hash != hashRequest req then .mismatch
    else .hit row.response_status row.response_body

/-! ## Request validation (`BookingService.validateRequest`)

The host `Date` built-in is abstracted: `parseDate s` stands for
`Date.parse s` (milliseconds since the epoch, `none` for `NaN`), and `now`
for `Date.now()` at validation time. -/

def invalidPatientBody : ApiResponse :=
  ⟨false, none, some ⟨.INVALID_PATIENT_ID,
    "patient_id is required and must be a non-empty string", []⟩⟩

def invalidSlotMissingBody : ApiResponse :=
  ⟨false, none, some ⟨.INVALID_SLOT,
    "slot_datetime is required and must be a valid ISO 8601 datetime string", []⟩⟩

def invalidSlotParseBody (s : String) : ApiResponse :=
  ⟨false, none, some ⟨.INVALID_SLOT,
    "slot_datetime must be a valid ISO 8601 datetime string", [("received", s)]⟩⟩

def slotInPastBody (s : String) : ApiResponse :=
  ⟨false, none, some ⟨.SLOT_IN_PAST,
    "Cannot book appointments in the past", [("slot_datetime", s)]⟩⟩

/-- JS whitespace test for `String.prototype.trim` (the whitespace kinds
that occur in the modelled payloads). -/
def jsWhitespace (c : Char) : Bool :=
  c == ' ' || c == '\t' || c == '\n' || c == '\r'

/-- JS `s.trim()`: strip leading and trailing whitespace. -/
def jsTrim (s : String) : String :=
  String.mk (((s.data.dropWhile jsWhitespace).reverse.dropWhile jsWhitespace).reverse)

/-- `BookingService.validateRequest`. The JS truthiness test
`!request.patient_id` together with `typeof !== 'string'` admits exactly
non-empty strings, and the `trim` test then rejects blank ones; both empty
and blank strings land in the same `INVALID_PATIENT_ID` branch, which the
`jsTrim p == ""` test captures. Likewise `!request.slot_datetime` sends the
empty slot string into the first `INVALID_SLOT` branch. -/
def validateRequest (now : Int) (parseDate : String → Option Int)
    (req : RawRequest) : Option ApiResponse :=
  match req.patient_id with
  | some (.str p) =>
    if jsTrim p == "" then some invalidPatientBody
    else
      match req.slot_datetime with
      | some (.str s) =>
        if s == "" then some invalidSlotMissingBody
        else
          match parseDate s with
          | none => some (invalidSlotParseBody s)
          | some t => if t < now then some (slotInPastBody s) else none
      | _ => some invalidSlotMissingBody
  | _ => some invalidPatientBody

/-! ## Reservation transaction (`src/db/sqlite.ts`) -/

/-- `statements.getBookedSlot`: `SELECT id FROM appointments WHERE
slot_datetime = ? AND status = 'booked'`. -/
def getBookedSlot (st : Store) (slot : String) : Option Appointment :=
  st.appointments.find? fun a => a.slot_datetime == slot && a.status == "booked"

/-- `statements.insertAppointment`, with the store's constraints: the
`id` primary key and the partial unique index `unique_booked_slot ON
appointments(slot_datetime) WHERE status = 'booked'`. A violated constraint
raises SQLite's `UNIQUE constraint failed: ...` error. -/
def insertAppointment (st : Store) (id pid slot : String) : Except String Store :=
  if st.appointments.any (fun a => a.id == id) then
    .error "UNIQUE constraint failed: appointments.id"
  else if st.appointments.any (fun a => a.slot_datetime == slot && a.status == "booked") then
    .error "UNIQUE constraint failed: index 'unique_booked_slot'"
  else
    .ok { st with appointments := st.appointments ++ [⟨id, pid, slot, "booked"⟩] }

/-- Return value of the transaction body in `src/db/sqlite.ts`. -/
structure TxResult where
  success : Bool
  error_code : Option String
  appointment_id : Option String
deriving Repr, DecidableEq

/-- `bookAppointmentTransaction` of `src/db/sqlite.ts`: inside one SQLite
transaction, check for an existing booked row for the slot, and insert
otherwise. A thrown error (`.error`) rolls the transaction back, so no
state accompanies it. -/
def bookAppointmentTransaction (st : Store) (id pid slot : String) :
    Except String (TxResult × Store) :=
  match getBookedSlot st slot with
  | some _ => .ok (⟨false, some "SLOT_TAKEN", none⟩, st)
  | none => (insertAppointment st id pid slot).map fun st' => (⟨true, none, some id⟩, st')

/-- What one call of the transaction does at run time: it either completes
with a result and the new store, or throws. `fault` injects an error raised
by the storage driver itself (e.g. `SQLITE_BUSY: database is locked`)
before the transaction body runs. -/
inductive TxOutcome
  | completed (r : TxResult) (st' : Store)
  | threw (msg : String)
deriving Repr, DecidableEq

def runTransaction (st : Store) (fault : Option String) (id pid slot : String) :
    TxOutcome :=
  match fault with
  | some m => .threw m
  | none =>
    match bookAppointmentTransaction st id pid slot with
    | .ok (r, st') => .completed r st'
    | .error m => .threw m

/-! ## `BookingService.bookAppointment` -/

/-- The typed `BookingRequest` of `src/types/index.ts`. -/
structure BookingRequest where
  patient_id : String
  slot_datetime : String
deriving Repr, DecidableEq

def slotTakenBody (slot : String) : ApiResponse :=
  ⟨false, none, some ⟨.SLOT_TAKEN, "This time slot is already booked",
    [("slot_datetime", slot)]⟩⟩

def internalBookBody : ApiResponse :=
  ⟨false, none, some ⟨.INTERNAL_ERROR, "Failed to book appointment", []⟩⟩

def internalCatchBody : ApiResponse :=
  ⟨false, none, some ⟨.INTERNAL_ERROR,
    "An internal error occurred while processing your request", []⟩⟩

/-- JS `String.prototype.includes`. -/
def hasSubstring (s sub : String) : Bool :=
  s.data.tails.any fun t => sub.data.isPrefixOf t

/-- The `catch` block of `bookAppointment`: a thrown error whose message
includes `UNIQUE constraint failed` becomes 409 `SLOT_TAKEN`; anything else
becomes 500 `INTERNAL_ERROR`. The throw rolled the transaction back, so the
store is unchanged. -/
def catchBooking (msg : String) (st : Store) (slot : String) :
    Nat × ApiResponse × Store :=
  if hasSubstring msg "UNIQUE constraint failed" then (409, slotTakenBody slot, st)
  else (500, internalCatchBody, st)

/-- `BookingService.bookAppointment`. `normalize` stands for the host's
`s => new Date(s).toISOString()`; `freshId` for `randomUUID()`; `fault`
injects a storage-driver error (see `runTransaction`). Returns the HTTP
status, the response body and the store after the call. -/
def bookAppointment (st : Store) (normalize : String → String)
    (req : BookingRequest) (freshId : String) (fault : Option String) :
    Nat × ApiResponse × Store :=
  let slotDatetime := normalize req.slot_datetime
  match runTransaction st fault freshId req.patient_id slotDatetime with
  | .threw msg => catchBooking msg st slotDatetime
  | .completed r st' =>
    if !r.success then
      if r.error_code == some "SLOT_TAKEN" then (409, slotTakenBody slotDatetime, st')
      else (500, internalBookBody, st')
    else
      (201,
       ⟨true, some ⟨r.appointment_id.getD "", req.patient_id, slotDatetime,
          "booked", "Appointment successfully booked"⟩, none⟩,
       st')

/-! ## `POST /api/appointments/book` (`src/routes/booking.route.ts`)

The route runs after `validateIdempotencyKey`, so it receives a UUID key.
The four steps are: idempotency lookup (mismatch → 422, hit → cached
result verbatim), validation (error → cache under the key, 400), the
booking itself, and caching of its outcome unless its error code is
`LOCK_TIMEOUT`. -/

def mismatchBody : ApiResponse :=
  ⟨false, none, some ⟨.IDEMPOTENCY_KEY_MISMATCH,
    "This Idempotency-Key was already used with different request parameters",
    [("hint", "Generate a new Idempotency-Key for requests with different parameters")]⟩⟩

/-- The string a raw field holds; used only after validation has
established that the field is a string. -/
def getStr : Option JsValue → String
  | some (.str s) => s
  | _ => ""

/-- The `POST /book` handler. Returns (HTTP status, body, store after the
call). -/
def postBook (st : Store) (now : Int) (parseDate : String → Option Int)
    (normalize : String → String) (key : String) (body : RawRequest)
    (freshId : String) (fault : Option String) : Nat × ApiResponse × Store :=
  match checkIdempotencyKey st key body with
  | .mismatch => (422, mismatchBody, st)
  | .hit status resp => (status, resp, st)
  | .absent =>
    match validateRequest now parseDate body with
    | some verr => (400, verr, storeIdempotencyKey st key body 400 verr)
    | none =>
      let r := bookAppointment st normalize
        ⟨getStr body.patient_id, getStr body.slot_datetime⟩ freshId fault
      let st2 :=
        if (r.2.1.error.map (·.code)) == some ErrorCode.LOCK_TIMEOUT then r.2.2
        else storeIdempotencyKey r.2.2 key body r.1 r.2.1
      (r.1, r.2.1, st2)

/-! ## Voice webhook booking (`handleBookAppointment`, `src/routes/vapi.route.ts`)

Host-dependent helpers of the route are abstracted as explicit function
parameters: `parseApptDT` for `parseAppointmentDateTime` (ISO string or
null), `getDay`/`getHours` for the `Date` accessors on the parsed slot,
`fmtDay`/`fmtTime` for the `toLocaleDateString`/`toLocaleTimeString`
confirmation formatting, and `slotAtHour` for
`new Date(originalDate).setHours(hour,0,0,0)` followed by `toISOString`. -/

/-- Arguments of the `book_appointment` tool call, after the route's `as
string` casts; `none` models an absent argument. -/
structure VapiArgs where
  patient_name : Option String
  patient_phone : Option String
  appointment_date : Option String
  appointment_time : Option String
  reason_for_visit : Option String
deriving Repr, DecidableEq

/-- JS falsiness of an optional string argument (`undefined` or `""`). -/
def isBlank : Option String → Bool
  | none => true
  | some s => s == ""

/-- `isWithinClinicHours`: `some message` when invalid. -/
def clinicHoursCheck (hours : Int) : Option String :=
  if hours < 9 then some "We open at 9 AM. How about 9 or 10 in the morning?"
  else if hours ≥ 18 then some "Oh we close at 6 PM. How about earlier, like 4 or 5?"
  else none

/-- `isWeekday`: `some message` when the day is Saturday or Sunday. -/
def weekdayCheck (day : Nat) : Option String :=
  if day == 0 || day == 6 then
    some "Ahh we're closed on weekends. How about Monday?"
  else none

/-- `patientPhone.replace(/\D/g, '')`. -/
def digitsOnly (s : String) : String :=
  String.mk (s.data.filter fun c => c.isDigit)

/-- `patientName.toLowerCase().replace(/\s+/g, '-')`: lowercase, then each
maximal run of whitespace becomes one hyphen. -/
def slugify (s : String) : String :=
  String.mk (((s.data.map Char.toLower).foldl
    (fun (acc : List Char × Bool) c =>
      if c = ' ' ∨ c = '\t' ∨ c = '\n' ∨ c = '\r' then
        (if acc.2 then acc.1 else acc.1 ++ ['-'], true)
      else (acc.1 ++ [c], false))
    ([], false)).1)

/-- The patient id the voice route derives:
`patientPhone.replace(/\D/g,'') || 'patient-' + slug(name)`. -/
def vapiPatientId (patientPhone patientName : String) : String :=
  if digitsOnly patientPhone == "" then "patient-" ++ slugify patientName
  else digitsOnly patientPhone

/-- `hour < 12 ? hour + ' AM' : hour === 12 ? '12 PM' : (hour-12) + ' PM'`. -/
def fmtHour (hour : Nat) : String :=
  if hour < 12 then toString hour ++ " AM"
  else if hour == 12 then "12 PM"
  else toString (hour - 12) ++ " PM"

/-- `findAlternativeSlots`: scan the candidate hours, keep the first two
whose slot has no booked row, and phrase them. -/
def findAlternativeSlots (st : Store) (slotAtHour : Nat → String) : String :=
  let alts := [9, 10, 11, 14, 15, 16, 17].foldl
    (fun (acc : List String) hour =>
      if acc.length ≥ 2 then acc
      else if (getBookedSlot st (slotAtHour hour)).isSome then acc
      else acc ++ [fmtHour hour])
    []
  if alts.length > 0 then String.intercalate " or " alts else "10 AM tomorrow"

/-- The fields of the tool-call reply record that the modelled paths
produce. -/
structure VapiResult where
  success : Bool
  message : String
  error_code : Option ErrorCode
  appointment_id : Option String
deriving Repr, DecidableEq

/-- `handleBookAppointment` of `src/routes/vapi.route.ts`. `freshKey`
stands for the `uuidv4()` idempotency key generated on the success path,
`freshId` and `fault` are passed through to `bookAppointment`. -/
def handleBookAppointment (st : Store) (args : VapiArgs)
    (parseApptDT : String → String → Option String)
    (getDay : String → Nat) (getHours : String → Int)
    (now : Int) (parseDate : String → Option Int) (normalize : String → String)
    (freshId freshKey : String) (fault : Option String)
    (fmtDay fmtTime : String → String) (slotAtHour : String → Nat → String) :
    VapiResult × Store :=
  if isBlank args.patient_name then
    (⟨false, "What's your name?", none, none⟩, st)
  else if isBlank args.patient_phone then
    (⟨false, "And what's a good number for you?", none, none⟩, st)
  else if isBlank args.appointment_date ∨ isBlank args.appointment_time then
    (⟨false, "When would you like to come in?", none, none⟩, st)
  else
    match parseApptDT (args.appointment_date.getD "") (args.appointment_time.getD "") with
    | none => (⟨false, "Hmm didn't catch that. What time?", none, none⟩, st)
    | some slotDatetime =>
      match weekdayCheck (getDay slotDatetime) with
      | some m => (⟨false, m, none, none⟩, st)
      | none =>
        match clinicHoursCheck (getHours slotDatetime) with
        | some m => (⟨false, m, none, none⟩, st)
        | none =>
          let patientId :=
            vapiPatientId (args.patient_phone.getD "") (args.patient_name.getD "")
          let bookingRequest : RawRequest :=
            ⟨some (.str patientId), some (.str slotDatetime)⟩
          match validateRequest now parseDate bookingRequest with
          | some verr =>
            if verr.error.map (·.code) == some ErrorCode.SLOT_IN_PAST then
              (⟨false, "That time's already passed. How about tomorrow?", none, none⟩, st)
            else
              (⟨false, "Something's off. Can you repeat that?", none, none⟩, st)
          | none =>
            let r := bookAppointment st normalize ⟨patientId, slotDatetime⟩ freshId fault
            if r.2.1.success then
              let st2 := storeIdempotencyKey r.2.2 freshKey bookingRequest r.1 r.2.1
              (⟨true,
                "Done! You're booked for " ++ fmtDay slotDatetime ++ " at " ++
                  fmtTime slotDatetime ++ ". See you then " ++
                  args.patient_name.getD "" ++ "!",
                none,
                r.2.1.data.map (·.appointment_id)⟩, st2)
            else if r.2.1.error.map (·.code) == some ErrorCode.SLOT_TAKEN then
              (⟨false,
                "Ooh that one's taken. How about " ++
                  findAlternativeSlots r.2.2 (slotAtHour slotDatetime) ++ "?",
                some .SLOT_TAKEN, none⟩, r.2.2)
            else
              (⟨false, "Hmm something went wrong. Let me try again.",
                r.2.1.error.map (·.code), none⟩, r.2.2)

/-! ## Invariants and helper lemmas -/

/-- The store invariant enforced by the partial unique index
`unique_booked_slot`: no two booked rows share a slot value. -/
def SlotInvariant (l : List Appointment) : Prop :=
  l.Pairwise fun a b =>
    a.status = "booked" → b.status = "booked" → a.slot_datetime ≠ b.slot_datetime

instance (l : List Appointment) : Decidable (SlotInvariant l) :=
  List.instDecidablePairwise l

/-- The `idempotency_keys` primary-key invariant: one row per key. -/
def KeysUnique (l : List IdemRecord) : Prop :=
  l.Pairwise fun r q => r.idempotency_key ≠ q.idempotency_key

instance (l : List IdemRecord) : Decidable (KeysUnique l) :=
  List.instDecidablePairwise l

/-- The response's error code, `response.error?.code`. -/
def errCodeOf (r : ApiResponse) : Option ErrorCode := r.error.map (·.code)

theorem storeIdempotencyKey_appointments (st : Store) (k : String) (r : RawRequest)
    (s : Nat) (b : ApiResponse) :
    (storeIdempotencyKey st k r s b).appointments = st.appointments := by
  unfold storeIdempotencyKey insertIdempotencyKey
  split <;> rfl

theorem getIdemRecord_of_keys {st st' : Store} (k : String)
    (h : st'.idempotency_keys = st.idempotency_keys) :
    getIdemRecord st' k = getIdemRecord st k := by
  unfold getIdemRecord
  rw [h]

theorem getIdemRecord_insert_self {st : Store} {key : String} (hash : String)
    (s : Nat) (b : ApiResponse) (h : getIdemRecord st key = none) :
    getIdemRecord (insertIdempotencyKey st key hash s b) key = some ⟨key, hash, s, b⟩ := by
  unfold insertIdempotencyKey
  rw [h]
  unfold getIdemRecord at h ⊢
  simp [List.find?_append, h]

theorem insertAppointment_ok {st : Store} {id pid slot : String} {st' : Store}
    (h : insertAppointment st id pid slot = .ok st') :
    st' = { st with appointments := st.appointments ++ [⟨id, pid, slot, "booked"⟩] } ∧
    ∀ a ∈ st.appointments, a.status = "booked" → a.slot_datetime ≠ slot := by
  unfold insertAppointment at h
  split at h
  · exact absurd h (by simp)
  · split at h
    · exact absurd h (by simp)
    · rename_i h2
      injection h with h
      refine ⟨h.symm, fun a ha hb hslot => ?_⟩
      simp only [List.any_eq_true, Bool.and_eq_true, beq_iff_eq, not_exists, not_and] at h2
      exact h2 a ha hslot hb

theorem tx_taken_of_booked {st : Store} {id pid slot : String}
    (h : (getBookedSlot st slot).isSome) :
    bookAppointmentTransaction st id pid slot = .ok (⟨false, some "SLOT_TAKEN", none⟩, st) := by
  unfold bookAppointmentTransaction
  cases hb : getBookedSlot st slot with
  | none => rw [hb] at h; exact absurd h (by simp)
  | some a => rfl

theorem tx_completed_cases {st : Store} {id pid slot : String} {r : TxResult} {st' : Store}
    (h : bookAppointmentTransaction st id pid slot = .ok (r, st')) :
    (st' = st ∧ r = ⟨false, some "SLOT_TAKEN", none⟩ ∧ (getBookedSlot st slot).isSome) ∨
    (r = ⟨true, none, some id⟩ ∧ getBookedSlot st slot = none ∧
      insertAppointment st id pid slot = .ok st') := by
  unfold bookAppointmentTransaction at h
  cases hb : getBookedSlot st slot with
  | some a =>
    rw [hb] at h
    injection h with h
    injection h with h1 h2
    exact .inl ⟨h2.symm, h1.symm, by simp⟩
  | none =>
    rw [hb] at h
    cases hi : insertAppointment st id pid slot with
    | error m => rw [hi] at h; exact absurd h (by simp [Except.map])
    | ok st'' =>
      rw [hi] at h
      simp only [Except.map, Except.ok.injEq, Prod.mk.injEq] at h
      exact .inr ⟨h.1.symm, rfl, by rw [h.2]⟩

/-- Exhaustive case analysis of `bookAppointment`: a call remaps every
thrown error to 409 `SLOT_TAKEN` or 500 `INTERNAL_ERROR` (store unchanged),
answers 409 `SLOT_TAKEN` when a booked row for the slot exists, or inserts
the new row and answers 201. -/
theorem bookAppointment_cases (st : Store) (nz : String → String)
    (req : BookingRequest) (fid : String) (fault : Option String) :
    bookAppointment st nz req fid fault = (409, slotTakenBody (nz req.slot_datetime), st) ∨
    bookAppointment st nz req fid fault = (500, internalCatchBody, st) ∨
    (∃ st', insertAppointment st fid req.patient_id (nz req.slot_datetime) = .ok st' ∧
      bookAppointment st nz req fid fault =
        (201, ⟨true, some ⟨fid, req.patient_id, nz req.slot_datetime, "booked",
          "Appointment successfully booked"⟩, none⟩, st')) := by
  cases fault with
  | some m =>
    by_cases hm : hasSubstring m "UNIQUE constraint failed" = true
    · exact .inl (by simp [bookAppointment, runTransaction, catchBooking, hm])
    · exact .inr (.inl (by simp [bookAppointment, runTransaction, catchBooking, hm]))
  | none =>
    cases h : bookAppointmentTransaction st fid req.patient_id (nz req.slot_datetime) with
    | error m =>
      by_cases hm : hasSubstring m "UNIQUE constraint failed" = true
      · exact .inl (by simp [bookAppointment, runTransaction, catchBooking, h, hm])
      · exact .inr (.inl (by simp [bookAppointment, runTransaction, catchBooking, h, hm]))
    | ok p =>
      obtain ⟨r, st'⟩ := p
      rcases tx_completed_cases h with ⟨rfl, rfl, _⟩ | ⟨rfl, _, hins⟩
      · exact .inl (by simp [bookAppointment, runTransaction, h])
      · exact .inr (.inr ⟨st', hins, by simp [bookAppointment, runTransaction, h]⟩)

theorem bookAppointment_keys (st : Store) (nz : String → String)
    (req : BookingRequest) (fid : String) (fault : Option String) :
    (bookAppointment st nz req fid fault).2.2.idempotency_keys = st.idempotency_keys := by
  rcases bookAppointment_cases st nz req fid fault with h | h | ⟨st', hins, h⟩
  · rw [h]
  · rw [h]
  · rw [h]
    rw [(insertAppointment_ok hins).1]

theorem bookAppointment_not_lock (st : Store) (nz : String → String)
    (req : BookingRequest) (fid : String) (fault : Option String) :
    errCodeOf (bookAppointment st nz req fid fault).2.1 ≠ some .LOCK_TIMEOUT := by
  rcases bookAppointment_cases st nz req fid fault with h | h | ⟨st', hins, h⟩ <;>
    rw [h] <;> simp [errCodeOf, slotTakenBody, internalCatchBody]

theorem bookAppointment_slotInv {st : Store} {nz : String → String}
    {req : BookingRequest} {fid : String} {fault : Option String}
    (hInv : SlotInvariant st.appointments) :
    SlotInvariant (bookAppointment st nz req fid fault).2.2.appointments := by
  rcases bookAppointment_cases st nz req fid fault with h | h | ⟨st', hins, h⟩
  · rw [h]; exact hInv
  · rw [h]; exact hInv
  · rw [h]
    obtain ⟨rfl, hany⟩ := insertAppointment_ok hins
    refine List.pairwise_append.mpr ⟨hInv, List.pairwise_singleton _ _, ?_⟩
    intro a ha b hb hba hbb
    simp only [List.mem_singleton] at hb
    subst hb
    exact hany a ha hba

/-- `checkIdempotencyKey` reports `absent` exactly when no row exists. -/
theorem checkIdem_absent {st : Store} {key : String} (req : RawRequest)
    (h : getIdemRecord st key = none) :
    checkIdempotencyKey st key req = .absent := by
  unfold checkIdempotencyKey
  rw [h]

/-- The store's appointments after `postBook` are either untouched or the
ones `bookAppointment` produced. -/
theorem postBook_appointments (st : Store) (now : Int) (pd : String → Option Int)
    (nz : String → String) (key : String) (body : RawRequest) (fid : String)
    (fault : Option String) :
    (postBook st now pd nz key body fid fault).2.2.appointments = st.appointments ∨
    (postBook st now pd nz key body fid fault).2.2.appointments =
      (bookAppointment st nz ⟨getStr body.patient_id, getStr body.slot_datetime⟩
        fid fault).2.2.appointments := by
  unfold postBook
  cases hc : checkIdempotencyKey st key body with
  | mismatch => exact .inl rfl
  | hit s r => exact .inl rfl
  | absent =>
    cases hv : validateRequest now pd body with
    | some verr => exact .inl (storeIdempotencyKey_appointments ..)
    | none =>
      refine .inr ?_
      simp only
      split
      · rfl
      · exact storeIdempotencyKey_appointments ..

/-- A call whose key has no record yet always leaves a record for the key,
holding the request's fingerprint and exactly the returned status and body
(no outcome of `bookAppointment` carries `LOCK_TIMEOUT`, so the handler's
only non-caching branch is dead). -/
theorem postBook_caches (st : Store) (now : Int) (pd : String → Option Int)
    (nz : String → String) (key : String) (body : RawRequest) (fid : String)
    (fault : Option String) (habs : getIdemRecord st key = none) :
    getIdemRecord (postBook st now pd nz key body fid fault).2.2 key =
      some ⟨key, hashRequest body, (postBook st now pd nz key body fid fault).1,
        (postBook st now pd nz key body fid fault).2.1⟩ := by
  have hchk := @checkIdem_absent st key body habs
  cases hv : validateRequest now pd body with
  | some verr =>
    simp only [postBook, hchk, hv]
    simpa [storeIdempotencyKey] using
      getIdemRecord_insert_self (hashRequest body) 400 verr habs
  | none =>
    have hnl := bookAppointment_not_lock st nz
      ⟨getStr body.patient_id, getStr body.slot_datetime⟩ fid fault
    have hnl' : ((bookAppointment st nz
        ⟨getStr body.patient_id, getStr body.slot_datetime⟩ fid fault).2.1.error.map
          (·.code) == some ErrorCode.LOCK_TIMEOUT) = false := by
      simpa [errCodeOf] using hnl
    have habs' : getIdemRecord (bookAppointment st nz
        ⟨getStr body.patient_id, getStr body.slot_datetime⟩ fid fault).2.2 key = none := by
      rw [getIdemRecord_of_keys key (bookAppointment_keys ..)]
      exact habs
    simp only [postBook, hchk, hv, hnl', Bool.false_eq_true, if_false]
    simpa [storeIdempotencyKey] using
      getIdemRecord_insert_self (hashRequest body) _ _ habs'

/-- A call whose key has a record with a matching fingerprint replays the
stored status and body verbatim and leaves the store unchanged. -/
theorem postBook_replay (st : Store) (now : Int) (pd : String → Option Int)
    (nz : String → String) {key : String} {body : RawRequest} {rec : IdemRecord}
    (fid : String) (fault : Option String)
    (hrec : getIdemRecord st key = some rec)
    (hmatch : rec.request_hash = hashRequest body) :
    postBook st now pd nz key body fid fault =
      (rec.response_status, rec.response_body, st) := by
  have hchk : checkIdempotencyKey st key body = .hit rec.response_status rec.response_body := by
    unfold checkIdempotencyKey
    rw [hrec]
    simp [hmatch]
  simp [postBook, hchk]

/-! ## Concrete example inputs for witnesses and counterexamples

`exParseDate` and `exNormalize` instantiate the abstracted `Date` built-in
the way the host behaves on the two example slot strings: both strings
denote the same instant, and `toISOString` always carries milliseconds. -/

def exReq : RawRequest := ⟨some (.str "patient-1"), some (.str "2030-01-05T10:00:00.000Z")⟩

def exReqNoMs : RawRequest := ⟨some (.str "patient-1"), some (.str "2030-01-05T10:00:00Z")⟩

def exParseDate : String → Option Int := fun s =>
  if s = "2030-01-05T10:00:00.000Z" ∨ s = "2030-01-05T10:00:00Z" then
    some 1893924000000
  else none

def exNormalize : String → String := fun s =>
  if s = "2030-01-05T10:00:00Z" then "2030-01-05T10:00:00.000Z" else s

def exStore1 : Store :=
  ⟨[⟨"id-1", "patient-1", "2030-01-05T10:00:00.000Z", "booked"⟩], []⟩

/-! ## The claims -/

/-- C1: at most one booked Reservation exists per distinct normalized slot
value in every reachable store, and every operation preserves this: the
`POST /book` pipeline (hence `bookAppointment` and
`bookAppointmentTransaction`, which are its only writers of the
`appointments` table) keeps `SlotInvariant`, and a booking for a slot that
already has a booked row answers `SLOT_TAKEN` without inserting anything.
Interleavings are serialized by the store (`db.transaction`), so
preservation under one atomic step covers any serialized schedule. -/
theorem booked_slot_uniqueness_invariant :
    (∀ st now pd nz key body fid fault, SlotInvariant st.appointments →
       SlotInvariant (postBook st now pd nz key body fid fault).2.2.appointments)
    ∧ (∀ st id pid slot, (getBookedSlot st slot).isSome →
       bookAppointmentTransaction st id pid slot =
         .ok (⟨false, some "SLOT_TAKEN", none⟩, st)) := by
  constructor
  · intro st now pd nz key body fid fault hInv
    rcases postBook_appointments st now pd nz key body fid fault with h | h <;> rw [h]
    · exact hInv
    · exact bookAppointment_slotInv hInv
  · intro st id pid slot h
    exact tx_taken_of_booked h

theorem booked_slot_uniqueness_invariant_witness :
    SlotInvariant (postBook ⟨[], []⟩ 0 exParseDate exNormalize "key-1" exReq
        "id-9" none).2.2.appointments
    ∧ bookAppointmentTransaction exStore1 "id-2" "patient-2" "2030-01-05T10:00:00.000Z" =
        .ok (⟨false, some "SLOT_TAKEN", none⟩, exStore1) :=
  ⟨booked_slot_uniqueness_invariant.1 ⟨[], []⟩ 0 exParseDate exNormalize "key-1" exReq
      "id-9" none (by decide),
   booked_slot_uniqueness_invariant.2 exStore1 "id-2" "patient-2"
      "2030-01-05T10:00:00.000Z" (by decide)⟩

/-- C2: idempotent replay. If key `key` has no record, a first `book` call
completes and caches its outcome; a second call with the same request and
key (under any later clock, `Date` behavior, fresh id or store fault)
returns exactly the first call's status, body and store — in particular it
creates no second Reservation. -/
theorem idempotent_replay (st : Store) (now now2 : Int)
    (pd pd2 : String → Option Int) (nz nz2 : String → String)
    (key : String) (body : RawRequest) (fid1 fid2 : String) (f1 f2 : Option String)
    (habs : getIdemRecord st key = none)
    (hcached : (getIdemRecord (postBook st now pd nz key body fid1 f1).2.2 key).isSome) :
    postBook (postBook st now pd nz key body fid1 f1).2.2 now2 pd2 nz2 key body fid2 f2
      = postBook st now pd nz key body fid1 f1 := by
  have hc := postBook_caches st now pd nz key body fid1 f1 habs
  rw [postBook_replay _ now2 pd2 nz2 fid2 f2 hc rfl]

set_option maxRecDepth 10000 in
theorem idempotent_replay_witness :
    postBook (postBook ⟨[], []⟩ 0 exParseDate exNormalize "key-1" exReq "id-1" none).2.2
        1 exParseDate exNormalize "key-1" exReq "id-2" none
      = postBook ⟨[], []⟩ 0 exParseDate exNormalize "key-1" exReq "id-1" none :=
  idempotent_replay ⟨[], []⟩ 0 1 exParseDate exParseDate exNormalize exNormalize
    "key-1" exReq "id-1" "id-2" none none (by decide) (by decide)

set_option maxRecDepth 10000 in
/-- C3 counterexample: the fingerprint is computed over the RAW
`slot_datetime` string, not the normalized slot. The two example requests
carry slot strings that denote the same instant (`exParseDate` assigns them
the same timestamp and `exNormalize` the same ISO form — the host `Date`
behavior), yet their fingerprints differ, and a retry that re-serializes
the slot is answered with a fingerprint mismatch instead of a match. -/
theorem fingerprint_uses_raw_slot_counterexample :
    exParseDate (getStr exReqNoMs.slot_datetime) = exParseDate (getStr exReq.slot_datetime)
    ∧ exNormalize (getStr exReqNoMs.slot_datetime) = exNormalize (getStr exReq.slot_datetime)
    ∧ hashRequest exReqNoMs ≠ hashRequest exReq
    ∧ checkIdempotencyKey
        (storeIdempotencyKey ⟨[], []⟩ "key-1" exReq 201 ⟨true, none, none⟩)
        "key-1" exReqNoMs = .mismatch := by
  refine ⟨rfl, rfl, by decide, by decide⟩

set_option maxRecDepth 10000 in
/-- C3 amended: the fingerprint is a deterministic SHA-256 digest over the
serialization of exactly `{patient_id, slot_datetime}` with the RAW slot
string, so two requests whose slot strings are serialized differently
produce different fingerprints even when they denote the same instant, and
do not match on retry. -/
theorem fingerprint_deterministic_over_raw_fields :
    (∀ r1 r2 : RawRequest, r1.patient_id = r2.patient_id →
       r1.slot_datetime = r2.slot_datetime → hashRequest r1 = hashRequest r2)
    ∧ hashRequest exReqNoMs ≠ hashRequest exReq := by
  constructor
  · intro r1 r2 h1 h2
    cases r1
    cases r2
    cases h1
    cases h2
    rfl
  · decide

set_option maxRecDepth 10000 in
theorem fingerprint_deterministic_over_raw_fields_witness :
    hashRequest exReq = hashRequest ⟨exReq.patient_id, exReq.slot_datetime⟩
    ∧ hashRequest exReqNoMs ≠ hashRequest exReq :=
  ⟨fingerprint_deterministic_over_raw_fields.1 exReq
      ⟨exReq.patient_id, exReq.slot_datetime⟩ rfl rfl,
   fingerprint_deterministic_over_raw_fields.2⟩

set_option maxRecDepth 10000 in
/-- C4, evaluation at the failing input: when the storage driver reports
lock contention (`SQLITE_BUSY`-style `database is locked`, a message
without `UNIQUE constraint failed`), `postBook` answers 500
`INTERNAL_ERROR` — `LOCK_TIMEOUT` is produced nowhere — and DOES record the
outcome under the idempotency key, so a retry with the same key replays the
cached 500 instead of re-running the protocol. -/
theorem lock_contention_internal_error_cached :
    postBook ⟨[], []⟩ 0 exParseDate exNormalize
        "11111111-1111-1111-1111-111111111111" exReq
        "aaaaaaaa-0000-4000-8000-000000000000" (some "database is locked") =
      (500, internalCatchBody,
        ⟨[], [⟨"11111111-1111-1111-1111-111111111111", hashRequest exReq,
          500, internalCatchBody⟩]⟩) := by
  decide

set_option maxRecDepth 10000 in
/-- C5 counterexample: a call ending in an unclassified internal failure
(driver error `disk I/O error`) returns `INTERNAL_ERROR`, yet an
idempotency record for the key DOES exist afterwards — contradicting the
claim that nothing is recorded. -/
theorem internal_error_cached_counterexample :
    errCodeOf (postBook ⟨[], []⟩ 0 exParseDate exNormalize "key-5" exReq "id-5"
        (some "disk I/O error")).2.1 = some .INTERNAL_ERROR
    ∧ ¬ getIdemRecord (postBook ⟨[], []⟩ 0 exParseDate exNormalize "key-5" exReq "id-5"
        (some "disk I/O error")).2.2 "key-5" = none := by
  decide

/-- C5 amended: when `book` ends in an unclassified internal failure the
handler returns 500 `INTERNAL_ERROR` and RECORDS that outcome under the
key (the only non-caching branch tests for `LOCK_TIMEOUT`), so a retry
with the same key replays the cached `INTERNAL_ERROR` instead of re-running
the pipeline. -/
theorem internal_error_recorded (st : Store) (now : Int)
    (pd : String → Option Int) (nz : String → String) (key : String)
    (body : RawRequest) (fid : String) (msg : String)
    (habs : getIdemRecord st key = none)
    (hval : validateRequest now pd body = none)
    (hmsg : hasSubstring msg "UNIQUE constraint failed" = false) :
    postBook st now pd nz key body fid (some msg) =
      (500, internalCatchBody,
        storeIdempotencyKey st key body 500 internalCatchBody) := by
  have hchk := @checkIdem_absent st key body habs
  have hbk : bookAppointment st nz ⟨getStr body.patient_id, getStr body.slot_datetime⟩
      fid (some msg) = (500, internalCatchBody, st) := by
    simp [bookAppointment, runTransaction, catchBooking, hmsg]
  simp [postBook, hchk, hval, hbk, internalCatchBody]

set_option maxRecDepth 10000 in
theorem internal_error_recorded_witness :
    postBook ⟨[], []⟩ 0 exParseDate exNormalize "key-5w" exReq "id-5" (some "SqliteError") =
      (500, internalCatchBody,
        storeIdempotencyKey ⟨[], []⟩ "key-5w" exReq 500 internalCatchBody) :=
  internal_error_recorded ⟨[], []⟩ 0 exParseDate exNormalize "key-5w" exReq "id-5"
    "SqliteError" (by decide) (by decide) (by decide)

/-- C6: every uniqueness-constraint violation thrown by the store at
commit time of the reservation transaction is remapped by `bookAppointment`
to 409 `SLOT_TAKEN` — with exactly the same status and body as the
pre-check path — and never surfaces as `INTERNAL_ERROR` or as a raw
exception. First conjunct: any thrown message containing
`UNIQUE constraint failed` yields the 409 `SLOT_TAKEN` answer. Second:
every error `insertAppointment` itself raises carries that substring.
Third: the pre-check path produces the identical answer. -/
theorem unique_violation_remapped_to_slot_taken :
    (∀ st nz req fid fault msg,
       runTransaction st fault fid req.patient_id (nz req.slot_datetime) = .threw msg →
       hasSubstring msg "UNIQUE constraint failed" = true →
       bookAppointment st nz req fid fault = (409, slotTakenBody (nz req.slot_datetime), st))
    ∧ (∀ st id pid slot msg, insertAppointment st id pid slot = .error msg →
       hasSubstring msg "UNIQUE constraint failed" = true)
    ∧ (∀ st nz req fid, (getBookedSlot st (nz req.slot_datetime)).isSome →
       bookAppointment st nz req fid none =
         (409, slotTakenBody (nz req.slot_datetime), st)) := by
  refine ⟨?_, ?_, ?_⟩
  · intro st nz req fid fault msg htx hmsg
    simp only [bookAppointment, htx]
    simp [catchBooking, hmsg]
  · intro st id pid slot msg h
    unfold insertAppointment at h
    split at h
    · injection h with h
      rw [← h]
      decide
    · split at h
      · injection h with h
        rw [← h]
        decide
      · exact absurd h (by simp)
  · intro st nz req fid h
    simp only [bookAppointment, runTransaction,
      @tx_taken_of_booked st fid req.patient_id (nz req.slot_datetime) h]
    simp

theorem unique_violation_remapped_to_slot_taken_witness :
    bookAppointment exStore1 exNormalize ⟨"patient-2", "2030-01-05T10:00:00Z"⟩ "id-7"
        (some "UNIQUE constraint failed: index 'unique_booked_slot'") =
      (409, slotTakenBody "2030-01-05T10:00:00.000Z", exStore1)
    ∧ hasSubstring "UNIQUE constraint failed: appointments.id" "UNIQUE constraint failed" = true
    ∧ bookAppointment exStore1 exNormalize ⟨"patient-2", "2030-01-05T10:00:00Z"⟩ "id-7" none =
        (409, slotTakenBody "2030-01-05T10:00:00.000Z", exStore1) :=
  ⟨unique_violation_remapped_to_slot_taken.1 exStore1 exNormalize
      ⟨"patient-2", "2030-01-05T10:00:00Z"⟩ "id-7"
      (some "UNIQUE constraint failed: index 'unique_booked_slot'") _ rfl (by decide),
   unique_violation_remapped_to_slot_taken.2.1 ⟨[⟨"id-7", "p", "s", "booked"⟩], []⟩
      "id-7" "p" "s2" _ rfl,
   unique_violation_remapped_to_slot_taken.2.2 exStore1 exNormalize
      ⟨"patient-2", "2030-01-05T10:00:00Z"⟩ "id-7" (by decide)⟩

/-- The claim's "patient_id missing, not a string, or empty after
trimming", as `validateRequest`'s first guard decides it. -/
def patientIdInvalid (req : RawRequest) : Bool :=
  match req.patient_id with
  | some (.str p) => jsTrim p == ""
  | _ => true

/-- The claim's "slot_datetime missing or not a string". -/
def slotNotString (req : RawRequest) : Bool :=
  match req.slot_datetime with
  | some (.str _) => false
  | _ => true

/-- A parseable past slot makes validation fail with `SLOT_IN_PAST`
(`hpe` records that the host parses the empty string to `NaN`). -/
theorem validateRequest_past {now : Int} {pd : String → Option Int}
    {req : RawRequest} {s : String} {t : Int}
    (h1 : patientIdInvalid req = false)
    (hs : req.slot_datetime = some (.str s)) (hpd : pd s = some t)
    (ht : t < now) (hpe : pd "" = none) :
    validateRequest now pd req = some (slotInPastBody s) := by
  have hse : s ≠ "" := by
    intro hse
    rw [hse, hpe] at hpd
    cases hpd
  cases hp : req.patient_id with
  | none => simp [patientIdInvalid, hp] at h1
  | some v =>
    cases v with
    | str p =>
      simp only [patientIdInvalid, hp] at h1
      simp [validateRequest, hp, hs, h1, hse, hpd, ht]
    | num n => simp [patientIdInvalid, hp] at h1
    | nullv => simp [patientIdInvalid, hp] at h1

/-- C7: `validateRequest` is a total function of the request and the
current clock (totality is by construction of the embedding: it returns a
value on every raw input). It answers `INVALID_PATIENT_ID` when the
patient id is missing, not a string or blank after trimming;
`INVALID_SLOT` when the slot is missing, not a string, or unparseable;
`SLOT_IN_PAST` when the slot parses to an instant before `now` — in which
case the `POST /book` pipeline returns that error and creates no
Reservation — and `valid` (`none`) otherwise. -/
theorem validateRequest_taxonomy (now : Int) (pd : String → Option Int)
    (req : RawRequest) (nz : String → String) (hpe : pd "" = none) :
    (patientIdInvalid req = true → validateRequest now pd req = some invalidPatientBody)
    ∧ (patientIdInvalid req = false → slotNotString req = true →
        validateRequest now pd req = some invalidSlotMissingBody)
    ∧ (∀ s, patientIdInvalid req = false → req.slot_datetime = some (.str s) →
        pd s = none →
        (validateRequest now pd req).map errCodeOf = some (some .INVALID_SLOT))
    ∧ (∀ s t, patientIdInvalid req = false → req.slot_datetime = some (.str s) →
        pd s = some t → t < now → validateRequest now pd req = some (slotInPastBody s))
    ∧ (∀ s t, patientIdInvalid req = false → req.slot_datetime = some (.str s) →
        pd s = some t → ¬ t < now → validateRequest now pd req = none)
    ∧ (∀ st key fid fault s t, getIdemRecord st key = none →
        patientIdInvalid req = false → req.slot_datetime = some (.str s) →
        pd s = some t → t < now →
        postBook st now pd nz key req fid fault =
          (400, slotInPastBody s, storeIdempotencyKey st key req 400 (slotInPastBody s))
        ∧ (postBook st now pd nz key req fid fault).2.2.appointments = st.appointments) := by
  refine ⟨?_, ?_, ?_, ?_, ?_, ?_⟩
  · intro h1
    cases hp : req.patient_id with
    | none => simp [validateRequest, hp]
    | some v =>
      cases v with
      | str p =>
        simp only [patientIdInvalid, hp] at h1
        simp [validateRequest, hp, h1]
      | num n => simp [validateRequest, hp]
      | nullv => simp [validateRequest, hp]
  · intro h1 h2
    cases hp : req.patient_id with
    | none => simp [patientIdInvalid, hp] at h1
    | some v =>
      cases v with
      | str p =>
        simp only [patientIdInvalid, hp] at h1
        cases hs : req.slot_datetime with
        | none => simp [validateRequest, hp, hs, h1]
        | some w =>
          cases w with
          | str s => simp [slotNotString, hs] at h2
          | num n => simp [validateRequest, hp, hs, h1]
          | nullv => simp [validateRequest, hp, hs, h1]
      | num n => simp [patientIdInvalid, hp] at h1
      | nullv => simp [patientIdInvalid, hp] at h1
  · intro s h1 hs hpd
    cases hp : req.patient_id with
    | none => simp [patientIdInvalid, hp] at h1
    | some v =>
      cases v with
      | str p =>
        simp only [patientIdInvalid, hp] at h1
        by_cases hse : s = ""
        · subst hse
          simp [validateRequest, hp, hs, h1, errCodeOf, invalidSlotMissingBody]
        · simp [validateRequest, hp, hs, h1, hse, hpd, errCodeOf, invalidSlotParseBody]
      | num n => simp [patientIdInvalid, hp] at h1
      | nullv => simp [patientIdInvalid, hp] at h1
  · intro s t h1 hs hpd ht
    exact validateRequest_past h1 hs hpd ht hpe
  · intro s t h1 hs hpd ht
    have hse : s ≠ "" := by
      intro hse
      rw [hse, hpe] at hpd
      cases hpd
    cases hp : req.patient_id with
    | none => simp [patientIdInvalid, hp] at h1
    | some v =>
      cases v with
      | str p =>
        simp only [patientIdInvalid, hp] at h1
        simp [validateRequest, hp, hs, h1, hse, hpd, ht]
      | num n => simp [patientIdInvalid, hp] at h1
      | nullv => simp [patientIdInvalid, hp] at h1
  · intro st key fid fault s t habs h1 hs hpd ht
    have hv := validateRequest_past h1 hs hpd ht hpe
    have hchk := @checkIdem_absent st key req habs
    exact ⟨by simp [postBook, hchk, hv],
      by simp [postBook, hchk, hv, storeIdempotencyKey_appointments]⟩

theorem validateRequest_taxonomy_witness :
    validateRequest 0 exParseDate ⟨none, none⟩ = some invalidPatientBody
    ∧ validateRequest 0 exParseDate ⟨some (.str "patient-1"), some .nullv⟩ =
        some invalidSlotMissingBody
    ∧ (validateRequest 0 exParseDate
        ⟨some (.str "patient-1"), some (.str "not-a-date")⟩).map errCodeOf =
        some (some .INVALID_SLOT)
    ∧ validateRequest 1893924000001 exParseDate exReq =
        some (slotInPastBody "2030-01-05T10:00:00.000Z")
    ∧ validateRequest 0 exParseDate exReq = none
    ∧ (postBook ⟨[], []⟩ 1893924000001 exParseDate exNormalize "key-7" exReq "id-7" none =
        (400, slotInPastBody "2030-01-05T10:00:00.000Z",
          storeIdempotencyKey ⟨[], []⟩ "key-7" exReq 400
            (slotInPastBody "2030-01-05T10:00:00.000Z"))
       ∧ (postBook ⟨[], []⟩ 1893924000001 exParseDate exNormalize "key-7" exReq "id-7"
            none).2.2.appointments = (⟨[], []⟩ : Store).appointments) :=
  ⟨(validateRequest_taxonomy 0 exParseDate ⟨none, none⟩ exNormalize (by decide)).1
      (by decide),
   (validateRequest_taxonomy 0 exParseDate ⟨some (.str "patient-1"), some .nullv⟩
      exNormalize (by decide)).2.1 (by decide) (by decide),
   (validateRequest_taxonomy 0 exParseDate
      ⟨some (.str "patient-1"), some (.str "not-a-date")⟩ exNormalize (by decide)).2.2.1
      "not-a-date" (by decide) rfl (by decide),
   (validateRequest_taxonomy 1893924000001 exParseDate exReq exNormalize
      (by decide)).2.2.2.1 "2030-01-05T10:00:00.000Z" 1893924000000 (by decide) rfl
      (by decide) (by decide),
   (validateRequest_taxonomy 0 exParseDate exReq exNormalize (by decide)).2.2.2.2.1
      "2030-01-05T10:00:00.000Z" 1893924000000 (by decide) rfl (by decide) (by decide),
   (validateRequest_taxonomy 1893924000001 exParseDate exReq exNormalize
      (by decide)).2.2.2.2.2 ⟨[], []⟩ "key-7" "id-7" none "2030-01-05T10:00:00.000Z"
      1893924000000 (by decide) (by decide) rfl (by decide) (by decide)⟩

/-- C8: fingerprint mismatch detection. After key `key` is first used with
request `body1` (stored record), reusing it with a request `body2` whose
fingerprint differs makes the second call answer 422
`IDEMPOTENCY_KEY_MISMATCH` and return the store unchanged: no Reservation
is inserted, the reservation protocol is never reached, and no new
idempotency record is written for the key. -/
theorem idempotency_key_mismatch (st : Store) (now now2 : Int)
    (pd pd2 : String → Option Int) (nz nz2 : String → String) (key : String)
    (body1 body2 : RawRequest) (fid1 fid2 : String) (f1 f2 : Option String)
    (habs : getIdemRecord st key = none)
    (hneq : hashRequest body1 ≠ hashRequest body2) :
    postBook (postBook st now pd nz key body1 fid1 f1).2.2 now2 pd2 nz2 key body2 fid2 f2
      = (422, mismatchBody, (postBook st now pd nz key body1 fid1 f1).2.2) := by
  have hc := postBook_caches st now pd nz key body1 fid1 f1 habs
  generalize hgen : (postBook st now pd nz key body1 fid1 f1).2.2 = q at hc ⊢
  have hchk : checkIdempotencyKey q key body2 = .mismatch := by
    unfold checkIdempotencyKey
    rw [hc]
    simp [bne_iff_ne, hneq]
  simp [postBook, hchk]

set_option maxRecDepth 10000 in
theorem idempotency_key_mismatch_witness :
    postBook (postBook ⟨[], []⟩ 0 exParseDate exNormalize "key-8" exReq "id-1" none).2.2
        0 exParseDate exNormalize "key-8" exReqNoMs "id-2" none
      = (422, mismatchBody,
         (postBook ⟨[], []⟩ 0 exParseDate exNormalize "key-8" exReq "id-1" none).2.2) :=
  idempotency_key_mismatch ⟨[], []⟩ 0 0 exParseDate exParseDate exNormalize exNormalize
    "key-8" exReq exReqNoMs "id-1" "id-2" none none (by decide) (by decide)

/-- C9: recording an outcome is insert-if-absent with first-write-wins.
`storeIdempotencyKey` is a total function of the store (the source wraps
the insert in `try/catch` and swallows every error, so it never raises);
an insert for a key that already has a record leaves the store — and hence
the record's fingerprint, status and body — unchanged; and it preserves
the one-record-per-key invariant. -/
theorem store_first_write_wins :
    (∀ st key req status resp rec, getIdemRecord st key = some rec →
       storeIdempotencyKey st key req status resp = st)
    ∧ (∀ st key req status resp, KeysUnique st.idempotency_keys →
       KeysUnique (storeIdempotencyKey st key req status resp).idempotency_keys) := by
  constructor
  · intro st key req status resp rec hrec
    unfold storeIdempotencyKey insertIdempotencyKey
    rw [hrec]
  · intro st key req status resp hu
    unfold storeIdempotencyKey insertIdempotencyKey
    cases hr : getIdemRecord st key with
    | some rec => exact hu
    | none =>
      refine List.pairwise_append.mpr ⟨hu, List.pairwise_singleton _ _, ?_⟩
      intro a ha b hb
      simp only [List.mem_singleton] at hb
      subst hb
      unfold getIdemRecord at hr
      rw [List.find?_eq_none] at hr
      simpa using hr a ha

set_option maxRecDepth 10000 in
theorem store_first_write_wins_witness :
    storeIdempotencyKey ⟨[], [⟨"key-9", "h", 201, ⟨true, none, none⟩⟩]⟩ "key-9" exReq
        409 (slotTakenBody "s") = ⟨[], [⟨"key-9", "h", 201, ⟨true, none, none⟩⟩]⟩
    ∧ KeysUnique (storeIdempotencyKey ⟨[], []⟩ "key-9" exReq 409
        (slotTakenBody "s")).idempotency_keys :=
  ⟨store_first_write_wins.1 ⟨[], [⟨"key-9", "h", 201, ⟨true, none, none⟩⟩]⟩ "key-9"
      exReq 409 (slotTakenBody "s") ⟨"key-9", "h", 201, ⟨true, none, none⟩⟩ (by decide),
   store_first_write_wins.2 ⟨[], []⟩ "key-9" exReq 409 (slotTakenBody "s") (by decide)⟩

/-- `findAlternativeSlots` reads only the `appointments` table. -/
theorem findAlternativeSlots_congr {st1 st2 : Store} (sah : Nat → String)
    (h : st1.appointments = st2.appointments) :
    findAlternativeSlots st1 sah = findAlternativeSlots st2 sah := by
  unfold findAlternativeSlots getBookedSlot
  simp only [h]

/-- `bookAppointment` reads and writes only the `appointments` table: its
status, body and resulting appointments depend on the store through
`appointments` alone. -/
theorem bookAppointment_congr {st1 st2 : Store} (nz : String → String)
    (req : BookingRequest) (fid : String) (fault : Option String)
    (h : st1.appointments = st2.appointments) :
    (bookAppointment st1 nz req fid fault).1 = (bookAppointment st2 nz req fid fault).1
    ∧ (bookAppointment st1 nz req fid fault).2.1 =
        (bookAppointment st2 nz req fid fault).2.1
    ∧ (bookAppointment st1 nz req fid fault).2.2.appointments =
        (bookAppointment st2 nz req fid fault).2.2.appointments := by
  cases fault with
  | some m =>
    by_cases hm : hasSubstring m "UNIQUE constraint failed" = true <;>
      simp [bookAppointment, runTransaction, catchBooking, hm, h]
  | none =>
    have hb : getBookedSlot st1 (nz req.slot_datetime) =
        getBookedSlot st2 (nz req.slot_datetime) := by
      unfold getBookedSlot
      rw [h]
    cases hbs : getBookedSlot st2 (nz req.slot_datetime) with
    | some a =>
      rw [hbs] at hb
      simp [bookAppointment, runTransaction, bookAppointmentTransaction, hb, hbs, h]
    | none =>
      rw [hbs] at hb
      have hmsg : hasSubstring "UNIQUE constraint failed: appointments.id"
          "UNIQUE constraint failed" = true := by decide
      by_cases hdup : (st2.appointments.any fun a => a.id == fid) = true
      · simp [bookAppointment, runTransaction, bookAppointmentTransaction,
          insertAppointment, catchBooking, Except.map, hb, hbs, h, hdup, hmsg]
      · have hslot2 : (st2.appointments.any
            fun a => a.slot_datetime == nz req.slot_datetime && a.status == "booked")
              = false := by
          unfold getBookedSlot at hbs
          rw [List.find?_eq_none] at hbs
          simp only [List.any_eq_false]
          exact fun a ha => hbs a ha
        simp [bookAppointment, runTransaction, bookAppointmentTransaction,
          insertAppointment, Except.map, hb, hbs, h, hdup, hslot2]

/-- C10: the voice-webhook booking path never consults the idempotency
cache. `handleBookAppointment`'s reply and its effect on the
`appointments` table are identical for any two stores whose idempotency
tables differ arbitrarily (so no cached result is ever read and a repeated
voice request re-runs the full reservation protocol instead of replaying),
and a successful call records its outcome under the freshly generated key
`fkey`. -/
theorem vapi_booking_ignores_idempotency_cache
    (st1 st2 : Store) (args : VapiArgs)
    (papt : String → String → Option String) (gd : String → Nat) (gh : String → Int)
    (now : Int) (pd : String → Option Int) (nz : String → String)
    (fid fkey : String) (fault : Option String)
    (fd ft : String → String) (sah : String → Nat → String)
    (happ : st1.appointments = st2.appointments) :
    (handleBookAppointment st1 args papt gd gh now pd nz fid fkey fault fd ft sah).1 =
      (handleBookAppointment st2 args papt gd gh now pd nz fid fkey fault fd ft sah).1
    ∧ (handleBookAppointment st1 args papt gd gh now pd nz fid fkey fault fd ft
        sah).2.appointments =
      (handleBookAppointment st2 args papt gd gh now pd nz fid fkey fault fd ft
        sah).2.appointments
    ∧ ((handleBookAppointment st1 args papt gd gh now pd nz fid fkey fault fd ft
          sah).1.success = true →
        getIdemRecord st1 fkey = none →
        (getIdemRecord (handleBookAppointment st1 args papt gd gh now pd nz fid fkey
          fault fd ft sah).2 fkey).isSome = true) := by
  unfold handleBookAppointment
  split
  · exact ⟨rfl, happ, fun hs _ => nomatch hs⟩
  split
  · exact ⟨rfl, happ, fun hs _ => nomatch hs⟩
  split
  · exact ⟨rfl, happ, fun hs _ => nomatch hs⟩
  split
  · exact ⟨rfl, happ, fun hs _ => nomatch hs⟩
  rename_i slotDatetime hslot
  split
  · exact ⟨rfl, happ, fun hs _ => nomatch hs⟩
  split
  · exact ⟨rfl, happ, fun hs _ => nomatch hs⟩
  dsimp only
  split
  · split
    · exact ⟨rfl, happ, fun hs _ => nomatch hs⟩
    · exact ⟨rfl, happ, fun hs _ => nomatch hs⟩
  obtain ⟨hc1, hc2, hc3⟩ := @bookAppointment_congr st1 st2 nz
    ⟨vapiPatientId (args.patient_phone.getD "") (args.patient_name.getD ""),
      slotDatetime⟩ fid fault happ
  have hfa := findAlternativeSlots_congr (sah slotDatetime) hc3
  rw [hc1, hc2, hfa]
  split
  · refine ⟨rfl, ?_, ?_⟩
    · rw [storeIdempotencyKey_appointments, storeIdempotencyKey_appointments]
      exact hc3
    · intro hs habs
      have hk : getIdemRecord (bookAppointment st1 nz
          ⟨vapiPatientId (args.patient_phone.getD "") (args.patient_name.getD ""),
            slotDatetime⟩ fid fault).2.2 fkey = none := by
        rw [getIdemRecord_of_keys fkey (bookAppointment_keys ..)]
        exact habs
      simp [storeIdempotencyKey, getIdemRecord_insert_self _ _ _ hk]
  split
  · exact ⟨rfl, hc3, fun hs _ => nomatch hs⟩
  · exact ⟨rfl, hc3, fun hs _ => nomatch hs⟩

def exVapiArgs : VapiArgs :=
  ⟨some "Jane Doe", some "5551234567", some "tomorrow", some "10 am", some "Checkup"⟩

def exVapiParse : String → String → Option String :=
  fun _ _ => some "2030-01-05T10:00:00.000Z"

def exStoreKeys : Store := ⟨[], [⟨"other-key", "h0", 201, ⟨true, none, none⟩⟩]⟩

set_option maxRecDepth 10000 in
theorem vapi_booking_ignores_idempotency_cache_witness :
    (handleBookAppointment exStoreKeys exVapiArgs exVapiParse (fun _ => 2) (fun _ => 10)
        0 exParseDate exNormalize "id-10" "key-10" none (fun _ => "Monday")
        (fun _ => "10:00 AM") (fun _ h => toString h)).1 =
      (handleBookAppointment ⟨[], []⟩ exVapiArgs exVapiParse (fun _ => 2) (fun _ => 10)
        0 exParseDate exNormalize "id-10" "key-10" none (fun _ => "Monday")
        (fun _ => "10:00 AM") (fun _ h => toString h)).1
    ∧ (handleBookAppointment exStoreKeys exVapiArgs exVapiParse (fun _ => 2) (fun _ => 10)
        0 exParseDate exNormalize "id-10" "key-10" none (fun _ => "Monday")
        (fun _ => "10:00 AM") (fun _ h => toString h)).2.appointments =
      (handleBookAppointment ⟨[], []⟩ exVapiArgs exVapiParse (fun _ => 2) (fun _ => 10)
        0 exParseDate exNormalize "id-10" "key-10" none (fun _ => "Monday")
        (fun _ => "10:00 AM") (fun _ h => toString h)).2.appointments
    ∧ (getIdemRecord (handleBookAppointment exStoreKeys exVapiArgs exVapiParse
        (fun _ => 2) (fun _ => 10) 0 exParseDate exNormalize "id-10" "key-10" none
        (fun _ => "Monday") (fun _ => "10:00 AM") (fun _ h => toString h)).2
        "key-10").isSome = true :=
  have T := vapi_booking_ignores_idempotency_cache exStoreKeys ⟨[], []⟩ exVapiArgs
    exVapiParse (fun _ => 2) (fun _ => 10) 0 exParseDate exNormalize "id-10" "key-10"
    none (fun _ => "Monday") (fun _ => "10:00 AM") (fun _ h => toString h) rfl
  ⟨T.1, T.2.1, T.2.2 (by decide) (by decide)⟩

end Booking
